import Mathlib

/-
  Verification of the Inventory Replenishment Recommendation Engine
  (app/services/purchasing.py) and its consumption aggregator
  (app/api/routes/purchasing.py, SupabasePurchasingDAO.fetch_historical_orders_and_recipes).

  Numbers: Python floats are embedded as rationals (all values the engine
  manipulates are produced by +, *, /, max on decimal inputs, which the
  claims only exercise at exactly representable points).
  Dates: Python date objects are embedded as their proleptic ordinal (an
  integer); date subtraction .days is ordinal subtraction, matching Python.
  Identifiers: a UUID is embedded as a natural number; its string
  serialization is embedded by the constructor MKey.ustr / IdVal.uuidStr so
  that serialization is injective by construction, as it is for real UUIDs.
-/

set_option autoImplicit false

deriving instance DecidableEq for Except

namespace Purchasing

/-- Dynamic Python values that can appear where an identity (UUID) is
expected: a typed UUID object, the string serialization of a UUID (which
UUID(str) parses back), or a string that fails UUID parsing. -/
inductive IdVal where
  | uuid (n : Nat)
  | uuidStr (n : Nat)
  | badStr (s : String)
deriving DecidableEq, Repr

/-- Keys of the four input dictionaries: a typed UUID key, the string
serialization of a UUID, or some other string key. -/
inductive MKey where
  | uuid (n : Nat)
  | ustr (n : Nat)
  | other (s : String)
deriving DecidableEq, Repr

/-- Dynamic Python values in numeric positions: a number (or a numeric
string, already identified with the rational it parses to), or a value on
which float() raises TypeError or ValueError. -/
inductive NumVal where
  | num (q : ℚ)
  | bad
deriving DecidableEq, Repr

/-- Dynamic Python values in date positions: a date object, a valid ISO
date string, or a string that date.fromisoformat rejects. -/
inductive DateVal where
  | pydate (d : Int)
  | isoStr (d : Int)
  | badStr (s : String)
deriving DecidableEq, Repr

/-- One entry of the stock_data mapping (the dict stored per ingredient). -/
structure StockEntry where
  current_stock : Option NumVal
  safety_stock : Option NumVal
deriving DecidableEq, Repr

/-- One entry of the supplier_data (per-ingredient override) mapping. -/
structure OverrideEntry where
  supplier_id : Option IdVal
  lead_time_days : Option Int
  supplier_name : Option String
deriving DecidableEq, Repr

/-- One entry of the default_supplier_data (supplier directory) mapping. -/
structure SupplierRecord where
  name : Option String
  default_lead_time_days : Option Int
deriving DecidableEq, Repr

/-- One catalog row of all_ingredients, with the keys the engine reads. -/
structure IngredientRow where
  id : Option IdVal
  name : Option String
  unit : Option String
  default_supplier_id : Option IdVal
  last_order_date : Option DateVal
  last_order_quantity : Option NumVal
deriving DecidableEq, Repr

/-- Minimal supplier info attached to recommendations. -/
structure SupplierReference where
  id : Nat
  name : String
deriving DecidableEq, Repr

/-- The status enumeration of a recommendation. -/
inductive Status where
  | OK
  | LOW
  | CRITICAL
  | NO_DATA
deriving DecidableEq, Repr

/-- Represents the purchasing suggestion for a single ingredient. -/
structure IngredientRecommendation where
  ingredient_id : Nat
  ingredient_name : String
  unit : String
  current_stock : ℚ
  safety_stock : ℚ
  total_quantity_consumed : ℚ
  avg_daily_consumption : ℚ
  lead_time_days : Int
  planning_horizon_days : Int
  projected_need : ℚ
  recommended_order_quantity : ℚ
  coverage_days : Option ℚ
  status : Status
  default_supplier : Option SupplierReference
  last_order_date : Option Int
  last_order_quantity : Option ℚ
deriving DecidableEq, Repr

/-- The two ValueError raise sites of compute_purchase_recommendations. -/
inductive ComputeError where
  | invalidDateRange
  | missingIngredientId
deriving DecidableEq, Repr

/-- First-match lookup in an association list, the embedding of Python
dict access (dict keys are unique, so first match is dict semantics). -/
def findKey {α : Type} (m : List (MKey × α)) (k : MKey) : Option α :=
  match m with
  | [] => none
  | (k', v) :: rest => if k' = k then some v else findKey rest k

/-- Embeds _lookup: try the typed key, then its string serialization.
A missing mapping or a missing key yields None. -/
def _lookup {α : Type} (mapping : Option (List (MKey × α))) (key : Option Nat) : Option α :=
  match mapping, key with
  | none, _ => none
  | some _, none => none
  | some m, some k =>
    match findKey m (MKey.uuid k) with
    | some v => some v
    | none => findKey m (MKey.ustr k)

/-- Embeds _coerce_uuid: a typed UUID passes through, a string is parsed
as a UUID, anything else (or a failed parse) yields None. -/
def _coerce_uuid : Option IdVal → Option Nat
  | none => none
  | some (IdVal.uuid n) => some n
  | some (IdVal.uuidStr n) => some n
  | some (IdVal.badStr _) => none

/-- Embeds _parse_date: a date passes through, a valid ISO string parses,
everything else yields None. -/
def _parse_date : Option DateVal → Option Int
  | some (DateVal.pydate d) => some d
  | some (DateVal.isoStr d) => some d
  | some (DateVal.badStr _) => none
  | none => none

/-- Embeds _to_float(value, default): None and unparseable values give the
default, numbers (and numeric strings) give their value. -/
def _to_float (value : Option NumVal) (default : Option ℚ) : Option ℚ :=
  match value with
  | none => default
  | some (NumVal.num q) => some q
  | some NumVal.bad => default

/-- Python truthiness of an optional string: None and the empty string are
falsy. -/
def truthyStr : Option String → Bool
  | none => false
  | some s => decide (s ≠ "")

/-- Embeds _determine_status, the first-match status ladder. -/
def _determine_status (has_consumption_data : Bool) (coverage_days : Option ℚ)
    (recommended_order_quantity : ℚ) (lead_time_days : Int)
    (planning_horizon_days : Int) : Status :=
  if !has_consumption_data then Status.NO_DATA
  else if recommended_order_quantity ≤ 0 then Status.OK
  else
    match coverage_days with
    | none => Status.LOW
    | some c =>
      if c ≤ (lead_time_days : ℚ) then Status.CRITICAL
      else if c ≤ (planning_horizon_days : ℚ) then Status.LOW
      else Status.OK

/-- Embeds _resolve_supplier_context, returning (lead_time_days,
supplier_reference). The supplier identity prefers the override supplier,
the lead time prefers the explicit override value, then the supplier
directory record, then the global fallback; the reference is only built
when the identity exists and a truthy name was found. -/
def _resolve_supplier_context (ingredient : IngredientRow)
    (supplier_override : OverrideEntry)
    (default_supplier_data : Option (List (MKey × SupplierRecord)))
    (default_lead_time_days : Int) : Int × Option SupplierReference :=
  let default_supplier_id := _coerce_uuid ingredient.default_supplier_id
  let override_supplier_id := _coerce_uuid supplier_override.supplier_id
  let supplier_id := override_supplier_id.orElse (fun _ => default_supplier_id)
  let lead_time0 := supplier_override.lead_time_days
  let supplier_record :=
    if supplier_id.isSome then _lookup default_supplier_data supplier_id else none
  let lead_time :=
    match lead_time0, supplier_record with
    | none, some r => r.default_lead_time_days
    | lt, _ => lt
  let lead_time_days := lead_time.getD default_lead_time_days
  let name0 := supplier_override.supplier_name
  let supplier_name :=
    if !truthyStr name0 then
      match supplier_record with
      | some r => r.name
      | none => name0
    else name0
  let supplier_reference :=
    match supplier_id with
    | some sid =>
      if truthyStr supplier_name then some (SupplierReference.mk sid (supplier_name.getD ""))
      else none
    | none => none
  (lead_time_days, supplier_reference)

/-- The body of the per-ingredient loop of compute_purchase_recommendations;
the consumption mapping carries floats (Dict[Any, float]), so _to_float is
applied to an always-parseable value, mirrored by wrapping in NumVal.num. -/
def computeOne (consumption_data : Option (List (MKey × ℚ)))
    (stock_data : Option (List (MKey × StockEntry)))
    (supplier_data : Option (List (MKey × OverrideEntry)))
    (default_supplier_data : Option (List (MKey × SupplierRecord)))
    (days_in_range : Int) (reorder_cycle_days : Int) (default_lead_time_days : Int)
    (ingredient : IngredientRow) : Except ComputeError IngredientRecommendation :=
  match _coerce_uuid ingredient.id with
  | none => Except.error ComputeError.missingIngredientId
  | some ingredient_id =>
    let ingredient_name := ingredient.name.getD ""
    let unit := ingredient.unit.getD ""
    let stock_entry := (_lookup stock_data (some ingredient_id)).getD (StockEntry.mk none none)
    let current_stock := (_to_float stock_entry.current_stock (some 0)).getD 0
    let safety_stock := (_to_float stock_entry.safety_stock (some 0)).getD 0
    let raw_consumption := _lookup consumption_data (some ingredient_id)
    let has_consumption_data := raw_consumption.isSome
    let total_consumed := (_to_float (raw_consumption.map NumVal.num) (some 0)).getD 0
    let avg_daily_consumption :=
      if has_consumption_data then total_consumed / (days_in_range : ℚ) else 0
    let supplier_override :=
      (_lookup supplier_data (some ingredient_id)).getD (OverrideEntry.mk none none none)
    let resolved :=
      _resolve_supplier_context ingredient supplier_override default_supplier_data
        default_lead_time_days
    let lead_time_days := resolved.1
    let supplier_reference := resolved.2
    let planning_horizon_days := lead_time_days + max reorder_cycle_days 0
    let projected_need := avg_daily_consumption * (planning_horizon_days : ℚ)
    let recommended_order_quantity :=
      max 0 (projected_need + safety_stock - current_stock)
    let coverage_days :=
      if avg_daily_consumption > 0 then some (current_stock / avg_daily_consumption) else none
    let status :=
      _determine_status has_consumption_data coverage_days recommended_order_quantity
        lead_time_days planning_horizon_days
    Except.ok
      { ingredient_id := ingredient_id
        ingredient_name := ingredient_name
        unit := unit
        current_stock := current_stock
        safety_stock := safety_stock
        total_quantity_consumed := total_consumed
        avg_daily_consumption := avg_daily_consumption
        lead_time_days := lead_time_days
        planning_horizon_days := planning_horizon_days
        projected_need := projected_need
        recommended_order_quantity := recommended_order_quantity
        coverage_days := coverage_days
        status := status
        default_supplier := supplier_reference
        last_order_date := _parse_date ingredient.last_order_date
        last_order_quantity := _to_float ingredient.last_order_quantity none }

/-- The stock entry used for an ingredient (missing entry becomes {}). -/
def stockEntryOf (stock_data : Option (List (MKey × StockEntry))) (uid : Nat) : StockEntry :=
  (_lookup stock_data (some uid)).getD (StockEntry.mk none none)

/-- The parsed current stock of an ingredient. -/
def currentStockOf (stock_data : Option (List (MKey × StockEntry))) (uid : Nat) : ℚ :=
  (_to_float (stockEntryOf stock_data uid).current_stock (some 0)).getD 0

/-- The parsed safety stock of an ingredient. -/
def safetyStockOf (stock_data : Option (List (MKey × StockEntry))) (uid : Nat) : ℚ :=
  (_to_float (stockEntryOf stock_data uid).safety_stock (some 0)).getD 0

/-- Whether the ingredient key is present in the consumption mapping. -/
def hasConsumption (consumption_data : Option (List (MKey × ℚ))) (uid : Nat) : Bool :=
  (_lookup consumption_data (some uid)).isSome

/-- The total consumption of an ingredient, 0 when the key is absent. -/
def totalConsumedOf (consumption_data : Option (List (MKey × ℚ))) (uid : Nat) : ℚ :=
  (_to_float ((_lookup consumption_data (some uid)).map NumVal.num) (some 0)).getD 0

/-- The average daily consumption of an ingredient. -/
def avgDailyOf (consumption_data : Option (List (MKey × ℚ))) (uid : Nat)
    (days_in_range : Int) : ℚ :=
  if hasConsumption consumption_data uid then
    totalConsumedOf consumption_data uid / (days_in_range : ℚ)
  else 0

/-- The supplier override entry of an ingredient (missing entry becomes {}). -/
def overrideEntryOf (supplier_data : Option (List (MKey × OverrideEntry))) (uid : Nat) :
    OverrideEntry :=
  (_lookup supplier_data (some uid)).getD (OverrideEntry.mk none none none)

/-- The resolved lead time of an ingredient. -/
def leadTimeOf (ingredient : IngredientRow)
    (supplier_data : Option (List (MKey × OverrideEntry)))
    (default_supplier_data : Option (List (MKey × SupplierRecord)))
    (default_lead_time_days : Int) (uid : Nat) : Int :=
  (_resolve_supplier_context ingredient (overrideEntryOf supplier_data uid)
    default_supplier_data default_lead_time_days).1

/-- The resolved supplier reference of an ingredient. -/
def supplierRefOf (ingredient : IngredientRow)
    (supplier_data : Option (List (MKey × OverrideEntry)))
    (default_supplier_data : Option (List (MKey × SupplierRecord)))
    (default_lead_time_days : Int) (uid : Nat) : Option SupplierReference :=
  (_resolve_supplier_context ingredient (overrideEntryOf supplier_data uid)
    default_supplier_data default_lead_time_days).2

/-- The planning horizon of an ingredient. -/
def horizonOf (ingredient : IngredientRow)
    (supplier_data : Option (List (MKey × OverrideEntry)))
    (default_supplier_data : Option (List (MKey × SupplierRecord)))
    (reorder_cycle_days : Int) (default_lead_time_days : Int) (uid : Nat) : Int :=
  leadTimeOf ingredient supplier_data default_supplier_data default_lead_time_days uid +
    max reorder_cycle_days 0

/-- The recommendation record built in the success branch of the loop body,
expressed through the named per-field functions above. -/
def recommendationFor (consumption_data : Option (List (MKey × ℚ)))
    (stock_data : Option (List (MKey × StockEntry)))
    (supplier_data : Option (List (MKey × OverrideEntry)))
    (default_supplier_data : Option (List (MKey × SupplierRecord)))
    (days_in_range : Int) (reorder_cycle_days : Int) (default_lead_time_days : Int)
    (ingredient : IngredientRow) (uid : Nat) : IngredientRecommendation :=
  let current_stock := currentStockOf stock_data uid
  let safety_stock := safetyStockOf stock_data uid
  let avg := avgDailyOf consumption_data uid days_in_range
  let lead_time_days :=
    leadTimeOf ingredient supplier_data default_supplier_data default_lead_time_days uid
  let planning_horizon_days :=
    horizonOf ingredient supplier_data default_supplier_data reorder_cycle_days
      default_lead_time_days uid
  let projected_need := avg * (planning_horizon_days : ℚ)
  let recommended_order_quantity := max 0 (projected_need + safety_stock - current_stock)
  let coverage_days := if avg > 0 then some (current_stock / avg) else none
  { ingredient_id := uid
    ingredient_name := ingredient.name.getD ""
    unit := ingredient.unit.getD ""
    current_stock := current_stock
    safety_stock := safety_stock
    total_quantity_consumed := totalConsumedOf consumption_data uid
    avg_daily_consumption := avg
    lead_time_days := lead_time_days
    planning_horizon_days := planning_horizon_days
    projected_need := projected_need
    recommended_order_quantity := recommended_order_quantity
    coverage_days := coverage_days
    status :=
      _determine_status (hasConsumption consumption_data uid) coverage_days
        recommended_order_quantity lead_time_days planning_horizon_days
    default_supplier :=
      supplierRefOf ingredient supplier_data default_supplier_data default_lead_time_days uid
    last_order_date := _parse_date ingredient.last_order_date
    last_order_quantity := _to_float ingredient.last_order_quantity none }

/-- Sequencing of the per-ingredient loop: the first raised error aborts the
whole computation (the Python exception discards the partial list),
otherwise the results are collected in catalog order. -/
def mapExcept {α β ε : Type} (f : α → Except ε β) : List α → Except ε (List β)
  | [] => Except.ok []
  | a :: rest =>
    match f a with
    | Except.error e => Except.error e
    | Except.ok b =>
      match mapExcept f rest with
      | Except.error e => Except.error e
      | Except.ok bs => Except.ok (b :: bs)

/-- Embeds compute_purchase_recommendations. Dates are proleptic ordinals;
date_to - date_from is the .days of the Python timedelta. -/
def compute_purchase_recommendations (all_ingredients : List IngredientRow)
    (consumption_data : Option (List (MKey × ℚ)))
    (stock_data : Option (List (MKey × StockEntry)))
    (supplier_data : Option (List (MKey × OverrideEntry)))
    (default_supplier_data : Option (List (MKey × SupplierRecord)))
    (date_from : Int) (date_to : Int)
    (reorder_cycle_days : Int) (default_lead_time_days : Int) :
    Except ComputeError (List IngredientRecommendation) :=
  if date_to < date_from then Except.error ComputeError.invalidDateRange
  else
    let days_in_range := max ((date_to - date_from) + 1) 1
    mapExcept
      (computeOne consumption_data stock_data supplier_data default_supplier_data
        days_in_range reorder_cycle_days default_lead_time_days)
      all_ingredients

/-- The supplier identity resolved for an ingredient: the override supplier
when present, else the catalog default supplier. -/
def supplierIdOf (ingredient : IngredientRow) (supplier_override : OverrideEntry) : Option Nat :=
  (_coerce_uuid supplier_override.supplier_id).orElse
    (fun _ => _coerce_uuid ingredient.default_supplier_id)

/-- Concrete catalog row of the reference Tomates scenario; 739007 is the
proleptic ordinal of 2024-05-01 and 739013 that of 2024-05-07. -/
def tomatoRow : IngredientRow :=
  IngredientRow.mk (some (IdVal.uuid 1)) (some "Tomates") (some "kg")
    (some (IdVal.uuid 10)) (some (DateVal.pydate 739007)) (some (NumVal.num 12))

/-- Consumption mapping of the Tomates scenario: 14.0 over the window. -/
def tomatoConsumption : List (MKey × ℚ) := [(MKey.uuid 1, 14)]

/-- Stock mapping of the Tomates scenario: current 2, safety 1. -/
def tomatoStock : List (MKey × StockEntry) :=
  [(MKey.uuid 1, StockEntry.mk (some (NumVal.num 2)) (some (NumVal.num 1)))]

/-- Override mapping of the Tomates scenario: lead time overridden to 5. -/
def tomatoOverride : List (MKey × OverrideEntry) :=
  [(MKey.uuid 1, OverrideEntry.mk none (some 5) none)]

/-- Supplier directory of the Tomates scenario: default lead time 3. -/
def tomatoSuppliers : List (MKey × SupplierRecord) :=
  [(MKey.uuid 10, SupplierRecord.mk (some "Fresh Farms") (some 3))]

/-- The recommendation the engine returns for the Tomates scenario. -/
def tomatoRec : IngredientRecommendation :=
  IngredientRecommendation.mk 1 "Tomates" "kg" 2 1 14 2 5 12 24 23 (some 1)
    Status.CRITICAL (some (SupplierReference.mk 10 "Fresh Farms")) (some 739007) (some 12)

/-- Concrete catalog row with no consumption data and safety stock above
current stock (current 2, safety 5). -/
def basilRow : IngredientRow :=
  IngredientRow.mk (some (IdVal.uuid 1)) (some "Basilic") (some "bunch") none none none

/-- Stock mapping of the no-data scenario: current 2, safety 5. -/
def basilStock : List (MKey × StockEntry) :=
  [(MKey.uuid 1, StockEntry.mk (some (NumVal.num 2)) (some (NumVal.num 5)))]

/-- The recommendation the engine returns for the no-data scenario. -/
def basilRec : IngredientRecommendation :=
  IngredientRecommendation.mk 1 "Basilic" "bunch" 2 5 0 0 2 9 0 3 none
    Status.NO_DATA none none none

/-- The three-ingredient lead-time priority scenario of the reference test:
one shared supplier (uuid 20), one ingredient with an override lead time,
one relying on the supplier default, one on the global fallback. -/
def leadCatalog : List IngredientRow :=
  [IngredientRow.mk (some (IdVal.uuid 2)) (some "Pasta") (some "kg")
     (some (IdVal.uuid 20)) none none,
   IngredientRow.mk (some (IdVal.uuid 3)) (some "Cheese") (some "kg")
     (some (IdVal.uuid 20)) none none,
   IngredientRow.mk (some (IdVal.uuid 4)) (some "Pepper") (some "g") none none none]

/-- Consumption mapping of the lead-time scenario: 14.0 each. -/
def leadConsumption : List (MKey × ℚ) :=
  [(MKey.uuid 2, 14), (MKey.uuid 3, 14), (MKey.uuid 4, 14)]

/-- Stock mapping of the lead-time scenario: current 5, safety 1 each. -/
def leadStock : List (MKey × StockEntry) :=
  [(MKey.uuid 2, StockEntry.mk (some (NumVal.num 5)) (some (NumVal.num 1))),
   (MKey.uuid 3, StockEntry.mk (some (NumVal.num 5)) (some (NumVal.num 1))),
   (MKey.uuid 4, StockEntry.mk (some (NumVal.num 5)) (some (NumVal.num 1)))]

/-- Override mapping of the lead-time scenario: only Pasta has one (9). -/
def leadOverride : List (MKey × OverrideEntry) :=
  [(MKey.uuid 2, OverrideEntry.mk none (some 9) none)]

/-- Supplier directory of the lead-time scenario: default lead time 6. -/
def leadSuppliers : List (MKey × SupplierRecord) :=
  [(MKey.uuid 20, SupplierRecord.mk (some "Main Supplier") (some 6))]

/-- The recommendation returned for Pasta in the lead-time scenario. -/
def leadRecPasta : IngredientRecommendation :=
  IngredientRecommendation.mk 2 "Pasta" "kg" 5 1 14 2 9 16 32 28 (some (5/2))
    Status.CRITICAL (some (SupplierReference.mk 20 "Main Supplier")) none none

/-- The recommendation returned for Cheese in the lead-time scenario. -/
def leadRecCheese : IngredientRecommendation :=
  IngredientRecommendation.mk 3 "Cheese" "kg" 5 1 14 2 6 13 26 22 (some (5/2))
    Status.CRITICAL (some (SupplierReference.mk 20 "Main Supplier")) none none

/-- The recommendation returned for Pepper in the lead-time scenario. -/
def leadRecPepper : IngredientRecommendation :=
  IngredientRecommendation.mk 4 "Pepper" "g" 5 1 14 2 2 9 18 14 (some (5/2))
    Status.LOW none none none

/-- A catalog row whose id is the string serialization of UUID 7. -/
def strRow : IngredientRow :=
  IngredientRow.mk (some (IdVal.uuidStr 7)) (some "Sel") (some "g") none none none

/-- The recommendation returned for the string-serialized-id row. -/
def strRec : IngredientRecommendation :=
  IngredientRecommendation.mk 7 "Sel" "g" 0 0 0 0 2 9 0 0 none Status.NO_DATA none none none

/-- A catalog row whose id is present but fails UUID parsing. -/
def badRow : IngredientRow :=
  IngredientRow.mk (some (IdVal.badStr "oops")) (some "Broken") none none none none

/-- Plain first-match lookup in a map keyed directly by the underlying
identity, the reference point for the two key representations. -/
def findNat {α : Type} (m : List (Nat × α)) (k : Nat) : Option α :=
  match m with
  | [] => none
  | (k', v) :: rest => if k' = k then some v else findNat rest k

end Purchasing

namespace Aggregator

/-- One row of the orders query result (id and ordered_at are not read by
the aggregation loop). Identifiers arrive as JSON strings. -/
structure OrderRow where
  menu_item_id : Option String
  quantity : Option ℚ
deriving DecidableEq, Repr

/-- One row of the recipes query result. -/
structure RecipeRow where
  menu_item_id : Option String
  ingredient_id : Option String
  quantity_per_unit : Option ℚ
deriving DecidableEq, Repr

/-- One row of the menu_items query result. -/
structure MenuItemRow where
  id : Option String
  display_name : Option String
  name : Option String
deriving DecidableEq, Repr

/-- One entry of the top_menu_items leaderboard. -/
structure TopMenuItem where
  menu_item_id : String
  menu_item_name : String
  quantity : ℚ
deriving DecidableEq, Repr

/-- The dictionary returned by fetch_historical_orders_and_recipes; maps
are embedded as insertion-ordered association lists. -/
structure AggResult where
  consumption : List (String × ℚ)
  total_dishes : ℚ
  top_menu_items : List TopMenuItem
deriving DecidableEq, Repr

/-- First-match lookup in a string-keyed association list (dict access). -/
def findStr {α : Type} (m : List (String × α)) (k : String) : Option α :=
  match m with
  | [] => none
  | (k', v) :: rest => if k' = k then some v else findStr rest k

/-- Embeds defaultdict(float) accumulation m[k] += v: update the entry in
place if the key exists, otherwise append it (insertion order). -/
def addTo (m : List (String × ℚ)) (k : String) (v : ℚ) : List (String × ℚ) :=
  match m with
  | [] => [(k, v)]
  | (k', v') :: rest =>
    if k' = k then (k', v' + v) :: rest else (k', v') :: addTo rest k v

/-- Embeds dict assignment m[k] = v: overwrite if present, else append. -/
def setStr (m : List (String × String)) (k : String) (v : String) : List (String × String) :=
  match m with
  | [] => [(k, v)]
  | (k', v') :: rest =>
    if k' = k then (k', v) :: rest else (k', v') :: setStr rest k v

/-- Python: a or b for strings, where None and the empty string are falsy. -/
def pyOrStr (a : Option String) (b : String) : String :=
  match a with
  | some s => if s = "" then b else s
  | none => b

/-- Reading recipe_map.get(str(menu_item_id), []): the defaultdict built by
grouping recipe rows with a truthy menu_item_id preserves, under each key,
the qualifying rows in their original order, which is this filter. -/
def recipesFor (recipes : List RecipeRow) (key : String) : List RecipeRow :=
  recipes.filter (fun r =>
    match r.menu_item_id with
    | some m => m ≠ "" && m = key
    | none => false)

/-- Embeds the menu_item_names construction from menu item rows. -/
def buildNames (rows : List MenuItemRow) : List (String × String) :=
  rows.foldl
    (fun acc item =>
      match item.id with
      | some i =>
        if i = "" then acc
        else setStr acc i (pyOrStr item.display_name (pyOrStr item.name "Plat"))
      | none => acc)
    []

/-- The accumulator of the main aggregation loop: consumption totals,
per-menu-item totals, and total_dishes. -/
structure AggState where
  consumption : List (String × ℚ)
  menu_totals : List (String × ℚ)
  total_dishes : ℚ
deriving DecidableEq, Repr

/-- The inner recipe loop body: skip recipe lines with a falsy
ingredient_id or a non-positive quantity_per_unit, otherwise accumulate
quantity * quantity_per_unit on the ingredient. -/
def recipeStep (quantity : ℚ) (c : List (String × ℚ)) (r : RecipeRow) : List (String × ℚ) :=
  match r.ingredient_id with
  | none => c
  | some iid =>
    let qty_per_unit := r.quantity_per_unit.getD 0
    if iid = "" ∨ qty_per_unit ≤ 0 then c
    else addTo c iid (quantity * qty_per_unit)

/-- One iteration of the loop over order rows: skip rows with a falsy
menu_item_id or non-positive quantity, otherwise count the dishes and run
the recipe loop for this menu item. -/
def orderStep (recipes : List RecipeRow) (st : AggState) (o : OrderRow) : AggState :=
  let quantity := o.quantity.getD 0
  match o.menu_item_id with
  | none => st
  | some mid =>
    if mid = "" ∨ quantity ≤ 0 then st
    else
      let menu_totals := addTo st.menu_totals mid quantity
      let total_dishes := st.total_dishes + quantity
      let consumption := (recipesFor recipes mid).foldl (recipeStep quantity) st.consumption
      AggState.mk consumption menu_totals total_dishes

/-- Embeds the pure aggregation part of fetch_historical_orders_and_recipes
(after the rows have been fetched): early return on zero order rows, else
one pass over the orders, then the stable descending top-5 leaderboard. -/
def fetch_historical_orders_and_recipes (orders : List OrderRow)
    (recipes : List RecipeRow) (menu_items_rows : List MenuItemRow) : AggResult :=
  if orders = [] then AggResult.mk [] 0 []
  else
    let menu_item_names := buildNames menu_items_rows
    let st := orders.foldl (orderStep recipes) (AggState.mk [] [] 0)
    let top :=
      ((st.menu_totals.mergeSort (fun a b => decide (b.2 ≤ a.2))).take 5).map
        (fun e => TopMenuItem.mk e.1 ((findStr menu_item_names e.1).getD "Plat") e.2)
    AggResult.mk st.consumption st.total_dishes top

/-- A qualifying order row, in the words of the claim: a present, truthy
menu_item_id and a positive quantity. -/
def orderQualifies (o : OrderRow) : Bool :=
  match o.menu_item_id with
  | none => false
  | some m => decide (m ≠ "") && decide (0 < o.quantity.getD 0)

/-- A qualifying recipe line, in the words of the claim: a present, truthy
ingredient_id and a positive quantity_per_unit. -/
def recipeQualifies (r : RecipeRow) : Bool :=
  match r.ingredient_id with
  | none => false
  | some i => decide (i ≠ "") && decide (0 < r.quantity_per_unit.getD 0)

/-- The ingredient-level contributions of one qualifying order row: one
pair (ingredient_id, order.quantity * quantity_per_unit) per qualifying
recipe line of the menu item sold. -/
def orderContribs (recipes : List RecipeRow) (o : OrderRow) : List (String × ℚ) :=
  if orderQualifies o then
    (recipesFor recipes (o.menu_item_id.getD "")).filterMap
      (fun r =>
        if recipeQualifies r then
          some (r.ingredient_id.getD "", o.quantity.getD 0 * r.quantity_per_unit.getD 0)
        else none)
  else []

/-- All ingredient-level contributions of an order history, in order. -/
def contribList (orders : List OrderRow) (recipes : List RecipeRow) : List (String × ℚ) :=
  match orders with
  | [] => []
  | o :: rest => orderContribs recipes o ++ contribList rest recipes

/-- The sum of the values carried by a key in a contribution list. -/
def sumKey : List (String × ℚ) → String → ℚ
  | [], _ => 0
  | p :: rest, k => (if p.1 = k then p.2 else 0) + sumKey rest k

/-- Whether a key occurs in a contribution list. -/
def hasKeyL : List (String × ℚ) → String → Bool
  | [], _ => false
  | p :: rest, k => decide (p.1 = k) || hasKeyL rest k

/-- The sum of the quantities of the qualifying order rows, in the words of
the claim: total dishes sold, independent of recipes. -/
def dishesOf : List OrderRow → ℚ
  | [] => 0
  | o :: rest => (if orderQualifies o then o.quantity.getD 0 else 0) + dishesOf rest

/-- Folding a list of keyed contributions into an accumulation map. -/
def foldAdd (m : List (String × ℚ)) (l : List (String × ℚ)) : List (String × ℚ) :=
  l.foldl (fun c p => addTo c p.1 p.2) m

end Aggregator

namespace Purchasing

theorem computeOne_none {cd : Option (List (MKey × ℚ))} {sd : Option (List (MKey × StockEntry))}
    {spd : Option (List (MKey × OverrideEntry))} {dsd : Option (List (MKey × SupplierRecord))}
    {days rc dl : Int} {ing : IngredientRow} (h : _coerce_uuid ing.id = none) :
    computeOne cd sd spd dsd days rc dl ing = Except.error ComputeError.missingIngredientId := by
  simp [computeOne, h]

theorem computeOne_some {cd : Option (List (MKey × ℚ))} {sd : Option (List (MKey × StockEntry))}
    {spd : Option (List (MKey × OverrideEntry))} {dsd : Option (List (MKey × SupplierRecord))}
    {days rc dl : Int} {ing : IngredientRow} {uid : Nat} (h : _coerce_uuid ing.id = some uid) :
    computeOne cd sd spd dsd days rc dl ing =
      Except.ok (recommendationFor cd sd spd dsd days rc dl ing uid) := by
  simp only [computeOne, h]
  rfl

theorem mapExcept_ok_length {α β ε : Type} {f : α → Except ε β} :
    ∀ {l : List α} {bs : List β}, mapExcept f l = Except.ok bs → bs.length = l.length := by
  intro l
  induction l with
  | nil =>
    intro bs h
    simp [mapExcept] at h
    simp [← h]
  | cons a rest ih =>
    intro bs h
    simp only [mapExcept] at h
    cases hfa : f a with
    | error e => rw [hfa] at h; exact absurd h (by simp)
    | ok b =>
      rw [hfa] at h
      cases hrest : mapExcept f rest with
      | error e => rw [hrest] at h; exact absurd h (by simp)
      | ok bs' =>
        rw [hrest] at h
        simp at h
        rw [← h]
        simp [ih hrest]

theorem mapExcept_ok_get {α β ε : Type} {f : α → Except ε β} :
    ∀ {l : List α} {bs : List β}, mapExcept f l = Except.ok bs →
      ∀ i (hl : i < l.length) (hb : i < bs.length),
        f (l.get ⟨i, hl⟩) = Except.ok (bs.get ⟨i, hb⟩) := by
  intro l
  induction l with
  | nil => intro bs h i hl hb; exact absurd hl (by simp)
  | cons a rest ih =>
    intro bs h i hl hb
    simp only [mapExcept] at h
    cases hfa : f a with
    | error e => rw [hfa] at h; exact absurd h (by simp)
    | ok b =>
      rw [hfa] at h
      cases hrest : mapExcept f rest with
      | error e => rw [hrest] at h; exact absurd h (by simp)
      | ok bs' =>
        rw [hrest] at h
        simp at h
        subst h
        cases i with
        | zero => simpa using hfa
        | succ j =>
          have hl' : j < rest.length := Nat.lt_of_succ_lt_succ hl
          have hb' : j < bs'.length := Nat.lt_of_succ_lt_succ hb
          simpa using ih hrest j hl' hb'

theorem mapExcept_ok_mem {α β ε : Type} {f : α → Except ε β} :
    ∀ {l : List α} {bs : List β}, mapExcept f l = Except.ok bs →
      ∀ {b : β}, b ∈ bs → ∃ a, a ∈ l ∧ f a = Except.ok b := by
  intro l
  induction l with
  | nil =>
    intro bs h b hb
    simp [mapExcept] at h
    subst h
    exact absurd hb (by simp)
  | cons a rest ih =>
    intro bs h b hb
    simp only [mapExcept] at h
    cases hfa : f a with
    | error e => rw [hfa] at h; exact absurd h (by simp)
    | ok b0 =>
      rw [hfa] at h
      cases hrest : mapExcept f rest with
      | error e => rw [hrest] at h; exact absurd h (by simp)
      | ok bs' =>
        rw [hrest] at h
        simp at h
        subst h
        rcases List.mem_cons.mp hb with hb0 | hbs
        · exact ⟨a, List.mem_cons_self a rest, hb0 ▸ hfa⟩
        · rcases ih hrest hbs with ⟨a', ha', hfa'⟩
          exact ⟨a', List.mem_cons_of_mem a ha', hfa'⟩

theorem mapExcept_error_exists_iff {α β ε : Type} {f : α → Except ε β} :
    ∀ {l : List α}, (∃ e, mapExcept f l = Except.error e) ↔
      ∃ a, a ∈ l ∧ ∃ e, f a = Except.error e := by
  intro l
  induction l with
  | nil => simp [mapExcept]
  | cons a rest ih =>
    constructor
    · rintro ⟨e, h⟩
      simp only [mapExcept] at h
      cases hfa : f a with
      | error e0 => exact ⟨a, List.mem_cons_self a rest, e0, hfa⟩
      | ok b =>
        rw [hfa] at h
        cases hrest : mapExcept f rest with
        | error e0 =>
          rcases ih.mp ⟨e0, hrest⟩ with ⟨a', ha', he'⟩
          exact ⟨a', List.mem_cons_of_mem a ha', he'⟩
        | ok bs' => rw [hrest] at h; exact absurd h (by simp)
    · rintro ⟨a', ha', e', he'⟩
      rcases List.mem_cons.mp ha' with h0 | hs
      · subst h0
        exact ⟨e', by simp only [mapExcept]; rw [he']⟩
      · cases hfa : f a with
        | error e0 => exact ⟨e0, by simp only [mapExcept]; rw [hfa]⟩
        | ok b =>
          rcases ih.mpr ⟨a', hs, e', he'⟩ with ⟨e0, hrest⟩
          exact ⟨e0, by simp only [mapExcept]; rw [hfa, hrest]⟩

theorem mapExcept_error_uniform {α β ε : Type} {f : α → Except ε β} {e0 : ε}
    (hu : ∀ a e, f a = Except.error e → e = e0) :
    ∀ {l : List α}, (∃ a, a ∈ l ∧ ∃ e, f a = Except.error e) →
      mapExcept f l = Except.error e0 := by
  intro l
  induction l with
  | nil => rintro ⟨a, ha, _⟩; exact absurd ha (by simp)
  | cons a rest ih =>
    rintro ⟨a', ha', e', he'⟩
    cases hfa : f a with
    | error e1 =>
      have := hu a e1 hfa
      subst this
      simp only [mapExcept]
      rw [hfa]
    | ok b =>
      rcases List.mem_cons.mp ha' with h0 | hs
      · subst h0; rw [hfa] at he'; exact absurd he' (by simp)
      · have hrest := ih ⟨a', hs, e', he'⟩
        simp only [mapExcept]
        rw [hfa, hrest]

theorem compute_ok_elim {all : List IngredientRow} {cd : Option (List (MKey × ℚ))}
    {sd : Option (List (MKey × StockEntry))} {spd : Option (List (MKey × OverrideEntry))}
    {dsd : Option (List (MKey × SupplierRecord))} {dfrom dto rc dl : Int}
    {recs : List IngredientRecommendation}
    (h : compute_purchase_recommendations all cd sd spd dsd dfrom dto rc dl = Except.ok recs) :
    ¬ (dto < dfrom) ∧
      mapExcept (computeOne cd sd spd dsd (max ((dto - dfrom) + 1) 1) rc dl) all =
        Except.ok recs := by
  by_cases hd : dto < dfrom
  · rw [compute_purchase_recommendations, if_pos hd] at h
    exact absurd h (by simp)
  · rw [compute_purchase_recommendations, if_neg hd] at h
    exact ⟨hd, h⟩

theorem computeOne_ok_inv {cd : Option (List (MKey × ℚ))} {sd : Option (List (MKey × StockEntry))}
    {spd : Option (List (MKey × OverrideEntry))} {dsd : Option (List (MKey × SupplierRecord))}
    {days rc dl : Int} {ing : IngredientRow} {r : IngredientRecommendation}
    (h : computeOne cd sd spd dsd days rc dl ing = Except.ok r) :
    ∃ uid, _coerce_uuid ing.id = some uid ∧
      r = recommendationFor cd sd spd dsd days rc dl ing uid := by
  cases hcu : _coerce_uuid ing.id with
  | none => rw [computeOne_none hcu] at h; exact absurd h (by simp)
  | some uid =>
    rw [computeOne_some hcu] at h
    simp at h
    exact ⟨uid, rfl, h.symm⟩

theorem computeOne_error_inv {cd : Option (List (MKey × ℚ))}
    {sd : Option (List (MKey × StockEntry))} {spd : Option (List (MKey × OverrideEntry))}
    {dsd : Option (List (MKey × SupplierRecord))} {days rc dl : Int} {ing : IngredientRow}
    {e : ComputeError} (h : computeOne cd sd spd dsd days rc dl ing = Except.error e) :
    _coerce_uuid ing.id = none ∧ e = ComputeError.missingIngredientId := by
  cases hcu : _coerce_uuid ing.id with
  | none =>
    rw [computeOne_none hcu] at h
    simp at h
    exact ⟨rfl, h.symm⟩
  | some uid => rw [computeOne_some hcu] at h; exact absurd h (by simp)

theorem recFor_ingredient_id {cd : Option (List (MKey × ℚ))}
    {sd : Option (List (MKey × StockEntry))} {spd : Option (List (MKey × OverrideEntry))}
    {dsd : Option (List (MKey × SupplierRecord))} {days rc dl : Int} {ing : IngredientRow}
    {uid : Nat} :
    (recommendationFor cd sd spd dsd days rc dl ing uid).ingredient_id = uid := rfl

theorem recFor_current {cd : Option (List (MKey × ℚ))} {sd : Option (List (MKey × StockEntry))}
    {spd : Option (List (MKey × OverrideEntry))} {dsd : Option (List (MKey × SupplierRecord))}
    {days rc dl : Int} {ing : IngredientRow} {uid : Nat} :
    (recommendationFor cd sd spd dsd days rc dl ing uid).current_stock =
      currentStockOf sd uid := rfl

theorem recFor_safety {cd : Option (List (MKey × ℚ))} {sd : Option (List (MKey × StockEntry))}
    {spd : Option (List (MKey × OverrideEntry))} {dsd : Option (List (MKey × SupplierRecord))}
    {days rc dl : Int} {ing : IngredientRow} {uid : Nat} :
    (recommendationFor cd sd spd dsd days rc dl ing uid).safety_stock =
      safetyStockOf sd uid := rfl

theorem recFor_avg {cd : Option (List (MKey × ℚ))} {sd : Option (List (MKey × StockEntry))}
    {spd : Option (List (MKey × OverrideEntry))} {dsd : Option (List (MKey × SupplierRecord))}
    {days rc dl : Int} {ing : IngredientRow} {uid : Nat} :
    (recommendationFor cd sd spd dsd days rc dl ing uid).avg_daily_consumption =
      avgDailyOf cd uid days := rfl

theorem recFor_total {cd : Option (List (MKey × ℚ))} {sd : Option (List (MKey × StockEntry))}
    {spd : Option (List (MKey × OverrideEntry))} {dsd : Option (List (MKey × SupplierRecord))}
    {days rc dl : Int} {ing : IngredientRow} {uid : Nat} :
    (recommendationFor cd sd spd dsd days rc dl ing uid).total_quantity_consumed =
      totalConsumedOf cd uid := rfl

theorem recFor_lead {cd : Option (List (MKey × ℚ))} {sd : Option (List (MKey × StockEntry))}
    {spd : Option (List (MKey × OverrideEntry))} {dsd : Option (List (MKey × SupplierRecord))}
    {days rc dl : Int} {ing : IngredientRow} {uid : Nat} :
    (recommendationFor cd sd spd dsd days rc dl ing uid).lead_time_days =
      leadTimeOf ing spd dsd dl uid := rfl

theorem recFor_horizon {cd : Option (List (MKey × ℚ))} {sd : Option (List (MKey × StockEntry))}
    {spd : Option (List (MKey × OverrideEntry))} {dsd : Option (List (MKey × SupplierRecord))}
    {days rc dl : Int} {ing : IngredientRow} {uid : Nat} :
    (recommendationFor cd sd spd dsd days rc dl ing uid).planning_horizon_days =
      leadTimeOf ing spd dsd dl uid + max rc 0 := rfl

theorem recFor_projected {cd : Option (List (MKey × ℚ))} {sd : Option (List (MKey × StockEntry))}
    {spd : Option (List (MKey × OverrideEntry))} {dsd : Option (List (MKey × SupplierRecord))}
    {days rc dl : Int} {ing : IngredientRow} {uid : Nat} :
    (recommendationFor cd sd spd dsd days rc dl ing uid).projected_need =
      avgDailyOf cd uid days * ((leadTimeOf ing spd dsd dl uid + max rc 0 : Int) : ℚ) := rfl

theorem recFor_roq {cd : Option (List (MKey × ℚ))} {sd : Option (List (MKey × StockEntry))}
    {spd : Option (List (MKey × OverrideEntry))} {dsd : Option (List (MKey × SupplierRecord))}
    {days rc dl : Int} {ing : IngredientRow} {uid : Nat} :
    (recommendationFor cd sd spd dsd days rc dl ing uid).recommended_order_quantity =
      max 0 ((recommendationFor cd sd spd dsd days rc dl ing uid).projected_need +
        safetyStockOf sd uid - currentStockOf sd uid) := rfl

theorem recFor_coverage {cd : Option (List (MKey × ℚ))} {sd : Option (List (MKey × StockEntry))}
    {spd : Option (List (MKey × OverrideEntry))} {dsd : Option (List (MKey × SupplierRecord))}
    {days rc dl : Int} {ing : IngredientRow} {uid : Nat} :
    (recommendationFor cd sd spd dsd days rc dl ing uid).coverage_days =
      (if avgDailyOf cd uid days > 0
       then some (currentStockOf sd uid / avgDailyOf cd uid days) else none) := rfl

theorem recFor_status {cd : Option (List (MKey × ℚ))} {sd : Option (List (MKey × StockEntry))}
    {spd : Option (List (MKey × OverrideEntry))} {dsd : Option (List (MKey × SupplierRecord))}
    {days rc dl : Int} {ing : IngredientRow} {uid : Nat} :
    (recommendationFor cd sd spd dsd days rc dl ing uid).status =
      _determine_status (hasConsumption cd uid)
        ((recommendationFor cd sd spd dsd days rc dl ing uid).coverage_days)
        ((recommendationFor cd sd spd dsd days rc dl ing uid).recommended_order_quantity)
        ((recommendationFor cd sd spd dsd days rc dl ing uid).lead_time_days)
        ((recommendationFor cd sd spd dsd days rc dl ing uid).planning_horizon_days) := rfl

theorem lookup_none_key {α : Type} (mapping : Option (List (MKey × α))) :
    _lookup mapping none = none := by
  cases mapping <;> rfl

theorem resolve_fst_eq {ing : IngredientRow} {ov : OverrideEntry}
    {dsd : Option (List (MKey × SupplierRecord))} {dl : Int} :
    (_resolve_supplier_context ing ov dsd dl).1 =
      (match ov.lead_time_days with
       | some l => l
       | none =>
         match _lookup dsd (supplierIdOf ing ov) with
         | some r => r.default_lead_time_days.getD dl
         | none => dl) := by
  simp only [supplierIdOf]
  unfold _resolve_supplier_context
  dsimp only
  generalize (_coerce_uuid ov.supplier_id).orElse
    (fun _ => _coerce_uuid ing.default_supplier_id) = sid
  have hrec : (if sid.isSome then _lookup dsd sid else none) = _lookup dsd sid := by
    cases sid with
    | none => simp [lookup_none_key]
    | some s => simp
  rw [hrec]
  cases hlt : ov.lead_time_days with
  | some l => rfl
  | none =>
    cases hr : _lookup dsd sid with
    | none => rfl
    | some r => rfl

theorem det_status_cases (hasC : Bool) (cov : Option ℚ) (roq : ℚ) (lt ph : Int)
    (hroq : 0 ≤ roq) :
    (_determine_status hasC cov roq lt ph = Status.CRITICAL →
      ∃ c, cov = some c ∧ c ≤ (lt : ℚ)) ∧
    (_determine_status hasC cov roq lt ph = Status.OK →
      roq = 0 ∨ ∃ c, cov = some c ∧ (ph : ℚ) < c) ∧
    (_determine_status hasC cov roq lt ph = Status.NO_DATA ↔ hasC = false) := by
  unfold _determine_status
  cases hasC with
  | false => simp
  | true =>
    simp only [Bool.not_true, Bool.false_eq_true, if_false]
    by_cases h1 : roq ≤ 0
    · have : roq = 0 := le_antisymm h1 hroq
      simp [h1, this]
    · simp only [if_neg h1]
      cases cov with
      | none => simp
      | some c =>
        by_cases h2 : c ≤ (lt : ℚ)
        · simp [h2]
        · by_cases h3 : c ≤ (ph : ℚ)
          · simp [h2, h3]
          · simp only [if_neg h2, if_neg h3]
            refine ⟨by intro hh; exact absurd hh (by simp), ?_, by simp⟩
            intro _
            exact Or.inr ⟨c, rfl, lt_of_not_le h3⟩

theorem mkey_uuid_eq_ustr_false (a b : Nat) : (MKey.uuid a = MKey.ustr b) = False :=
  eq_false (fun h => MKey.noConfusion h)

theorem mkey_ustr_eq_uuid_false (a b : Nat) : (MKey.ustr a = MKey.uuid b) = False :=
  eq_false (fun h => MKey.noConfusion h)

theorem tomato_compute :
    compute_purchase_recommendations [tomatoRow] (some tomatoConsumption) (some tomatoStock)
      (some tomatoOverride) (some tomatoSuppliers) 739007 739013 7 2 =
      Except.ok [tomatoRec] := by
  norm_num [compute_purchase_recommendations, mapExcept, computeOne, tomatoRow,
    tomatoConsumption, tomatoStock, tomatoOverride, tomatoSuppliers, tomatoRec, _coerce_uuid,
    _lookup, findKey, _to_float, _parse_date, _determine_status, _resolve_supplier_context,
    truthyStr]
  intro h
  simp at h

theorem basil_compute :
    compute_purchase_recommendations [basilRow] (some []) (some basilStock) (some []) (some [])
      739007 739013 7 2 = Except.ok [basilRec] := by
  norm_num [compute_purchase_recommendations, mapExcept, computeOne, basilRow, basilStock,
    basilRec, _coerce_uuid, _lookup, findKey, _to_float, _parse_date, _determine_status,
    _resolve_supplier_context, truthyStr]

theorem lead_compute :
    compute_purchase_recommendations leadCatalog (some leadConsumption) (some leadStock)
      (some leadOverride) (some leadSuppliers) 739007 739013 7 2 =
      Except.ok [leadRecPasta, leadRecCheese, leadRecPepper] := by
  norm_num [compute_purchase_recommendations, mapExcept, computeOne, leadCatalog,
    leadConsumption, leadStock, leadOverride, leadSuppliers, leadRecPasta, leadRecCheese,
    leadRecPepper, _coerce_uuid, _lookup, findKey, _to_float, _parse_date, _determine_status,
    _resolve_supplier_context, truthyStr, mkey_uuid_eq_ustr_false, mkey_ustr_eq_uuid_false]
  intro h
  simp at h

theorem str_compute :
    compute_purchase_recommendations [strRow] (some []) (some []) (some []) (some [])
      739007 739013 7 2 = Except.ok [strRec] := by
  norm_num [compute_purchase_recommendations, mapExcept, computeOne, strRow, strRec,
    _coerce_uuid, _lookup, findKey, _to_float, _parse_date, _determine_status,
    _resolve_supplier_context, truthyStr]

theorem bad_compute :
    compute_purchase_recommendations [badRow] (some []) (some []) (some []) (some [])
      739007 739013 7 2 = Except.error ComputeError.missingIngredientId := by
  norm_num [compute_purchase_recommendations, mapExcept, computeOne, badRow, _coerce_uuid]

theorem hasConsumption_false_iff {cd : Option (List (MKey × ℚ))} {uid : Nat} :
    hasConsumption cd uid = false ↔ _lookup cd (some uid) = none := by
  cases h : _lookup cd (some uid) <;> simp [hasConsumption, h]

/-- C1 counterexample: for the Basilic input (consumption key absent,
current stock 2, safety stock 5) the engine returns status NO_DATA but
recommended_order_quantity 3, so the recommended quantity of a NO_DATA
ingredient is not 0 for every stock value. -/
theorem c1_no_data_roq_counterexample :
    compute_purchase_recommendations [basilRow] (some []) (some basilStock) (some []) (some [])
        739007 739013 7 2 = Except.ok [basilRec] ∧
      basilRec.status = Status.NO_DATA ∧
      basilRec.recommended_order_quantity ≠ 0 :=
  ⟨basil_compute, rfl, by norm_num [basilRec]⟩

/-- C1 (amended): every catalog ingredient absent from the consumption map
gets status NO_DATA, null coverage_days and total_quantity_consumed 0 for
every stock value, and recommended_order_quantity
max(0, safety_stock - current_stock), which is 0 whenever the safety stock
does not exceed the current stock. -/
theorem c1_no_data_defaults (all : List IngredientRow) (cd : Option (List (MKey × ℚ)))
    (sd : Option (List (MKey × StockEntry))) (spd : Option (List (MKey × OverrideEntry)))
    (dsd : Option (List (MKey × SupplierRecord))) (dfrom dto rc dl : Int)
    (recs : List IngredientRecommendation)
    (h : compute_purchase_recommendations all cd sd spd dsd dfrom dto rc dl = Except.ok recs)
    (i : Nat) (hi : i < recs.length) (hl : i < all.length) (uid : Nat)
    (hcu : _coerce_uuid (all.get ⟨i, hl⟩).id = some uid)
    (habs : _lookup cd (some uid) = none) :
    (recs.get ⟨i, hi⟩).status = Status.NO_DATA ∧
    (recs.get ⟨i, hi⟩).coverage_days = none ∧
    (recs.get ⟨i, hi⟩).total_quantity_consumed = 0 ∧
    (recs.get ⟨i, hi⟩).recommended_order_quantity =
      max 0 ((recs.get ⟨i, hi⟩).safety_stock - (recs.get ⟨i, hi⟩).current_stock) := by
  obtain ⟨hd, hmap⟩ := compute_ok_elim h
  have hpt := mapExcept_ok_get hmap i hl hi
  obtain ⟨uid', hcu', hrec⟩ := computeOne_ok_inv hpt
  rw [hcu] at hcu'
  simp only [Option.some.injEq] at hcu'
  subst hcu'
  rw [hrec]
  have hh : hasConsumption cd uid = false := hasConsumption_false_iff.mpr habs
  have havg : avgDailyOf cd uid (max ((dto - dfrom) + 1) 1) = 0 := by simp [avgDailyOf, hh]
  refine ⟨?_, ?_, ?_, ?_⟩
  · rw [recFor_status, hh]
    simp [_determine_status]
  · rw [recFor_coverage, havg]
    simp
  · rw [recFor_total]
    simp [totalConsumedOf, habs, _to_float]
  · simp [recFor_roq, recFor_projected, recFor_safety, recFor_current, havg]

/-- C1 witness: the amended claim instantiated on the Basilic input. -/
theorem c1_no_data_defaults_witness :
    basilRec.status = Status.NO_DATA ∧
    basilRec.coverage_days = none ∧
    basilRec.total_quantity_consumed = 0 ∧
    basilRec.recommended_order_quantity =
      max 0 (basilRec.safety_stock - basilRec.current_stock) :=
  c1_no_data_defaults [basilRow] (some []) (some basilStock) (some []) (some [])
    739007 739013 7 2 [basilRec] basil_compute 0 (by simp) (by simp) 1 rfl rfl

/-- C2: the status of every returned recommendation is computed by the
_determine_status first-match ladder on the presence of consumption data
and the record's own coverage, recommended quantity, lead time and
horizon; in particular CRITICAL implies a non-null coverage at most the
lead time, OK implies a zero recommended quantity or a coverage above the
planning horizon, and NO_DATA holds exactly when the consumption key is
absent. -/
theorem c2_status_ladder (all : List IngredientRow) (cd : Option (List (MKey × ℚ)))
    (sd : Option (List (MKey × StockEntry))) (spd : Option (List (MKey × OverrideEntry)))
    (dsd : Option (List (MKey × SupplierRecord))) (dfrom dto rc dl : Int)
    (recs : List IngredientRecommendation)
    (h : compute_purchase_recommendations all cd sd spd dsd dfrom dto rc dl = Except.ok recs) :
    (∀ r, r ∈ recs →
      (r.status = Status.CRITICAL →
        ∃ c, r.coverage_days = some c ∧ c ≤ (r.lead_time_days : ℚ)) ∧
      (r.status = Status.OK →
        r.recommended_order_quantity = 0 ∨
          ∃ c, r.coverage_days = some c ∧ ((r.planning_horizon_days : ℚ) < c))) ∧
    (∀ i (hi : i < recs.length) (hl : i < all.length) (uid : Nat),
      _coerce_uuid (all.get ⟨i, hl⟩).id = some uid →
      (recs.get ⟨i, hi⟩).status =
        _determine_status (hasConsumption cd uid) ((recs.get ⟨i, hi⟩).coverage_days)
          ((recs.get ⟨i, hi⟩).recommended_order_quantity)
          ((recs.get ⟨i, hi⟩).lead_time_days) ((recs.get ⟨i, hi⟩).planning_horizon_days) ∧
      ((recs.get ⟨i, hi⟩).status = Status.NO_DATA ↔ _lookup cd (some uid) = none)) := by
  obtain ⟨hd, hmap⟩ := compute_ok_elim h
  constructor
  · intro r hr
    obtain ⟨a, ha, hfa⟩ := mapExcept_ok_mem hmap hr
    obtain ⟨uid, hcu, hrec⟩ := computeOne_ok_inv hfa
    subst hrec
    have h0 : 0 ≤ (recommendationFor cd sd spd dsd (max ((dto - dfrom) + 1) 1) rc dl a
        uid).recommended_order_quantity := by
      rw [recFor_roq]; exact le_max_left _ _
    have hcase := det_status_cases (hasConsumption cd uid)
      ((recommendationFor cd sd spd dsd (max ((dto - dfrom) + 1) 1) rc dl a uid).coverage_days)
      ((recommendationFor cd sd spd dsd (max ((dto - dfrom) + 1) 1) rc dl a
        uid).recommended_order_quantity)
      ((recommendationFor cd sd spd dsd (max ((dto - dfrom) + 1) 1) rc dl a uid).lead_time_days)
      ((recommendationFor cd sd spd dsd (max ((dto - dfrom) + 1) 1) rc dl a
        uid).planning_horizon_days) h0
    exact ⟨fun hc => hcase.1 (recFor_status ▸ hc), fun hc => hcase.2.1 (recFor_status ▸ hc)⟩
  · intro i hi hl uid hcu
    have hpt := mapExcept_ok_get hmap i hl hi
    obtain ⟨uid', hcu', hrec⟩ := computeOne_ok_inv hpt
    rw [hcu] at hcu'
    simp only [Option.some.injEq] at hcu'
    subst hcu'
    rw [hrec]
    have h0 : 0 ≤ (recommendationFor cd sd spd dsd (max ((dto - dfrom) + 1) 1) rc dl
        (all.get ⟨i, hl⟩) uid).recommended_order_quantity := by
      rw [recFor_roq]; exact le_max_left _ _
    have hcase := det_status_cases (hasConsumption cd uid)
      ((recommendationFor cd sd spd dsd (max ((dto - dfrom) + 1) 1) rc dl (all.get ⟨i, hl⟩)
        uid).coverage_days)
      ((recommendationFor cd sd spd dsd (max ((dto - dfrom) + 1) 1) rc dl (all.get ⟨i, hl⟩)
        uid).recommended_order_quantity)
      ((recommendationFor cd sd spd dsd (max ((dto - dfrom) + 1) 1) rc dl (all.get ⟨i, hl⟩)
        uid).lead_time_days)
      ((recommendationFor cd sd spd dsd (max ((dto - dfrom) + 1) 1) rc dl (all.get ⟨i, hl⟩)
        uid).planning_horizon_days) h0
    refine ⟨recFor_status, ?_⟩
    rw [recFor_status]
    exact (hcase.2.2).trans hasConsumption_false_iff

/-- C2 witness: the CRITICAL implication instantiated on the Tomates
scenario, whose status is CRITICAL. -/
theorem c2_status_ladder_witness :
    ∃ c, tomatoRec.coverage_days = some c ∧ c ≤ (tomatoRec.lead_time_days : ℚ) :=
  ((c2_status_ladder [tomatoRow] (some tomatoConsumption) (some tomatoStock)
      (some tomatoOverride) (some tomatoSuppliers) 739007 739013 7 2 [tomatoRec]
      tomato_compute).1 tomatoRec (by simp)).1 rfl

/-- C3: for every ingredient whose key is present in the consumption map,
the returned record satisfies the arithmetic of the engine (total consumed
is the mapped value, average is total over the clamped day count, horizon
is lead time plus the clamped reorder cycle, projected need is average
times horizon, recommended quantity is the clamped stock gap and coverage
is stock over average when positive, null otherwise); concretely the
Tomates scenario returns avg 2, coverage 1, status CRITICAL and
recommended quantity 23. -/
theorem c3_engine_formulas (all : List IngredientRow) (cd : Option (List (MKey × ℚ)))
    (sd : Option (List (MKey × StockEntry))) (spd : Option (List (MKey × OverrideEntry)))
    (dsd : Option (List (MKey × SupplierRecord))) (dfrom dto rc dl : Int)
    (recs : List IngredientRecommendation)
    (h : compute_purchase_recommendations all cd sd spd dsd dfrom dto rc dl = Except.ok recs)
    (i : Nat) (hi : i < recs.length) (hl : i < all.length) (uid : Nat) (q : ℚ)
    (hcu : _coerce_uuid (all.get ⟨i, hl⟩).id = some uid)
    (hq : _lookup cd (some uid) = some q) :
    ((recs.get ⟨i, hi⟩).total_quantity_consumed = q ∧
     (recs.get ⟨i, hi⟩).avg_daily_consumption =
       q / ((max ((dto - dfrom) + 1) 1 : Int) : ℚ) ∧
     (recs.get ⟨i, hi⟩).planning_horizon_days =
       (recs.get ⟨i, hi⟩).lead_time_days + max rc 0 ∧
     (recs.get ⟨i, hi⟩).projected_need =
       (recs.get ⟨i, hi⟩).avg_daily_consumption *
         (((recs.get ⟨i, hi⟩).planning_horizon_days : Int) : ℚ) ∧
     (recs.get ⟨i, hi⟩).recommended_order_quantity =
       max 0 ((recs.get ⟨i, hi⟩).projected_need + (recs.get ⟨i, hi⟩).safety_stock -
         (recs.get ⟨i, hi⟩).current_stock) ∧
     (recs.get ⟨i, hi⟩).coverage_days =
       (if (recs.get ⟨i, hi⟩).avg_daily_consumption > 0 then
          some ((recs.get ⟨i, hi⟩).current_stock / (recs.get ⟨i, hi⟩).avg_daily_consumption)
        else none)) ∧
    compute_purchase_recommendations [tomatoRow] (some tomatoConsumption) (some tomatoStock)
      (some tomatoOverride) (some tomatoSuppliers) 739007 739013 7 2 =
      Except.ok [tomatoRec] := by
  refine ⟨?_, tomato_compute⟩
  obtain ⟨hd, hmap⟩ := compute_ok_elim h
  have hpt := mapExcept_ok_get hmap i hl hi
  obtain ⟨uid', hcu', hrec⟩ := computeOne_ok_inv hpt
  rw [hcu] at hcu'
  simp only [Option.some.injEq] at hcu'
  subst hcu'
  rw [hrec]
  have hh : hasConsumption cd uid = true := by simp [hasConsumption, hq]
  have htot : totalConsumedOf cd uid = q := by simp [totalConsumedOf, hq, _to_float]
  refine ⟨?_, ?_, ?_, rfl, rfl, rfl⟩
  · rw [recFor_total, htot]
  · rw [recFor_avg]
    simp [avgDailyOf, hh, htot]
  · simp [recFor_horizon, recFor_lead]

/-- C3 witness: the formulas instantiated on the Tomates scenario. -/
theorem c3_engine_formulas_witness :
    (tomatoRec.total_quantity_consumed = 14 ∧
     tomatoRec.avg_daily_consumption =
       14 / ((max ((739013 - 739007 : Int) + 1) 1 : Int) : ℚ) ∧
     tomatoRec.planning_horizon_days = tomatoRec.lead_time_days + max (7:Int) 0 ∧
     tomatoRec.projected_need =
       tomatoRec.avg_daily_consumption * ((tomatoRec.planning_horizon_days : Int) : ℚ) ∧
     tomatoRec.recommended_order_quantity =
       max 0 (tomatoRec.projected_need + tomatoRec.safety_stock - tomatoRec.current_stock) ∧
     tomatoRec.coverage_days =
       (if tomatoRec.avg_daily_consumption > 0 then
          some (tomatoRec.current_stock / tomatoRec.avg_daily_consumption)
        else none)) ∧
    compute_purchase_recommendations [tomatoRow] (some tomatoConsumption) (some tomatoStock)
      (some tomatoOverride) (some tomatoSuppliers) 739007 739013 7 2 =
      Except.ok [tomatoRec] :=
  c3_engine_formulas [tomatoRow] (some tomatoConsumption) (some tomatoStock)
    (some tomatoOverride) (some tomatoSuppliers) 739007 739013 7 2 [tomatoRec]
    tomato_compute 0 (by simp) (by simp) 1 14 rfl rfl

/-- C4: the lead time of every returned recommendation is resolved with
strict priority, independently per ingredient: the override value when the
override entry carries one, else the default_lead_time_days of the
resolved supplier directory record when it provides one, else the global
fallback parameter. -/
theorem c4_lead_time_priority (all : List IngredientRow) (cd : Option (List (MKey × ℚ)))
    (sd : Option (List (MKey × StockEntry))) (spd : Option (List (MKey × OverrideEntry)))
    (dsd : Option (List (MKey × SupplierRecord))) (dfrom dto rc dl : Int)
    (recs : List IngredientRecommendation)
    (h : compute_purchase_recommendations all cd sd spd dsd dfrom dto rc dl = Except.ok recs)
    (i : Nat) (hi : i < recs.length) (hl : i < all.length) (uid : Nat)
    (hcu : _coerce_uuid (all.get ⟨i, hl⟩).id = some uid) :
    (∀ L, (overrideEntryOf spd uid).lead_time_days = some L →
      (recs.get ⟨i, hi⟩).lead_time_days = L) ∧
    (∀ r D, (overrideEntryOf spd uid).lead_time_days = none →
      _lookup dsd (supplierIdOf (all.get ⟨i, hl⟩) (overrideEntryOf spd uid)) = some r →
      r.default_lead_time_days = some D →
      (recs.get ⟨i, hi⟩).lead_time_days = D) ∧
    ((overrideEntryOf spd uid).lead_time_days = none →
      (∀ r, _lookup dsd (supplierIdOf (all.get ⟨i, hl⟩) (overrideEntryOf spd uid)) = some r →
        r.default_lead_time_days = none) →
      (recs.get ⟨i, hi⟩).lead_time_days = dl) := by
  obtain ⟨hd, hmap⟩ := compute_ok_elim h
  have hpt := mapExcept_ok_get hmap i hl hi
  obtain ⟨uid', hcu', hrec⟩ := computeOne_ok_inv hpt
  rw [hcu] at hcu'
  simp only [Option.some.injEq] at hcu'
  subst hcu'
  rw [hrec]
  refine ⟨?_, ?_, ?_⟩
  · intro L hov
    simp [recFor_lead, leadTimeOf, resolve_fst_eq, hov]
  · intro r D hov hlk hD
    simp only [List.get_eq_getElem] at hlk
    simp [recFor_lead, leadTimeOf, resolve_fst_eq, hov, hlk, hD]
  · intro hov hall
    cases hlk : _lookup dsd (supplierIdOf (all.get ⟨i, hl⟩) (overrideEntryOf spd uid)) with
    | none =>
      have hlk' := hlk
      simp only [List.get_eq_getElem] at hlk'
      simp [recFor_lead, leadTimeOf, resolve_fst_eq, hov, hlk']
    | some r =>
      have hlk' := hlk
      simp only [List.get_eq_getElem] at hlk'
      simp [recFor_lead, leadTimeOf, resolve_fst_eq, hov, hlk', hall r hlk]

/-- C4 witness: the three-ingredient shared-supplier scenario resolves to
9 (override), 6 (supplier default) and 2 (global fallback). -/
theorem c4_lead_time_priority_witness :
    leadRecPasta.lead_time_days = 9 ∧ leadRecCheese.lead_time_days = 6 ∧
    leadRecPepper.lead_time_days = 2 :=
  ⟨(c4_lead_time_priority leadCatalog (some leadConsumption) (some leadStock)
      (some leadOverride) (some leadSuppliers) 739007 739013 7 2
      [leadRecPasta, leadRecCheese, leadRecPepper] lead_compute 0 (by simp)
      (by simp [leadCatalog]) 2 rfl).1 9 rfl,
   (c4_lead_time_priority leadCatalog (some leadConsumption) (some leadStock)
      (some leadOverride) (some leadSuppliers) 739007 739013 7 2
      [leadRecPasta, leadRecCheese, leadRecPepper] lead_compute 1 (by simp)
      (by simp [leadCatalog]) 3 rfl).2.1 (SupplierRecord.mk (some "Main Supplier") (some 6)) 6 rfl rfl rfl,
   (c4_lead_time_priority leadCatalog (some leadConsumption) (some leadStock)
      (some leadOverride) (some leadSuppliers) 739007 739013 7 2
      [leadRecPasta, leadRecCheese, leadRecPepper] lead_compute 2 (by simp)
      (by simp [leadCatalog]) 4 rfl).2.2 rfl (fun r hlk => Option.noConfusion hlk)⟩

/-- C5: every recommendation in a successfully returned list has a
nonnegative recommended_order_quantity, for any inputs. -/
theorem c5_roq_nonneg (all : List IngredientRow) (cd : Option (List (MKey × ℚ)))
    (sd : Option (List (MKey × StockEntry))) (spd : Option (List (MKey × OverrideEntry)))
    (dsd : Option (List (MKey × SupplierRecord))) (dfrom dto rc dl : Int)
    (recs : List IngredientRecommendation)
    (h : compute_purchase_recommendations all cd sd spd dsd dfrom dto rc dl = Except.ok recs)
    (r : IngredientRecommendation) (hr : r ∈ recs) :
    0 ≤ r.recommended_order_quantity := by
  obtain ⟨hd, hmap⟩ := compute_ok_elim h
  obtain ⟨a, ha, hfa⟩ := mapExcept_ok_mem hmap hr
  obtain ⟨uid, hcu, hrec⟩ := computeOne_ok_inv hfa
  subst hrec
  rw [recFor_roq]
  exact le_max_left _ _

/-- C5 witness: nonnegativity instantiated on the Tomates scenario. -/
theorem c5_roq_nonneg_witness : 0 ≤ tomatoRec.recommended_order_quantity :=
  c5_roq_nonneg [tomatoRow] (some tomatoConsumption) (some tomatoStock) (some tomatoOverride)
    (some tomatoSuppliers) 739007 739013 7 2 [tomatoRec] tomato_compute tomatoRec (by simp)

/-- C6: the engine raises exactly when the date range is inverted or some
catalog entry has no coercible identity; all other irregular input is
silently defaulted. -/
theorem c6_error_conditions (all : List IngredientRow) (cd : Option (List (MKey × ℚ)))
    (sd : Option (List (MKey × StockEntry))) (spd : Option (List (MKey × OverrideEntry)))
    (dsd : Option (List (MKey × SupplierRecord))) (dfrom dto rc dl : Int) :
    (∃ e, compute_purchase_recommendations all cd sd spd dsd dfrom dto rc dl =
        Except.error e) ↔
      (dto < dfrom ∨ ∃ ing, ing ∈ all ∧ _coerce_uuid ing.id = none) := by
  constructor
  · rintro ⟨e, he⟩
    by_cases hd : dto < dfrom
    · exact Or.inl hd
    · right
      rw [compute_purchase_recommendations, if_neg hd] at he
      obtain ⟨a, ha, e', he'⟩ := mapExcept_error_exists_iff.mp ⟨e, he⟩
      exact ⟨a, ha, (computeOne_error_inv he').1⟩
  · intro hcond
    by_cases hd : dto < dfrom
    · exact ⟨ComputeError.invalidDateRange, by rw [compute_purchase_recommendations, if_pos hd]⟩
    · rcases hcond with hd' | ⟨ing, hmem, hcu⟩
      · exact absurd hd' hd
      · refine ⟨ComputeError.missingIngredientId, ?_⟩
        rw [compute_purchase_recommendations, if_neg hd]
        exact mapExcept_error_uniform (fun a e he => (computeOne_error_inv he).2)
          ⟨ing, hmem, _, computeOne_none hcu⟩

/-- C9: a successful run returns exactly one recommendation per catalog
entry, in order, carrying that entry's coerced identity, and distinct
catalog identities give distinct recommendation identities. -/
theorem c9_one_per_ingredient (all : List IngredientRow) (cd : Option (List (MKey × ℚ)))
    (sd : Option (List (MKey × StockEntry))) (spd : Option (List (MKey × OverrideEntry)))
    (dsd : Option (List (MKey × SupplierRecord))) (dfrom dto rc dl : Int)
    (recs : List IngredientRecommendation)
    (h : compute_purchase_recommendations all cd sd spd dsd dfrom dto rc dl = Except.ok recs) :
    recs.length = all.length ∧
    (∀ i (hi : i < recs.length) (hl : i < all.length),
      _coerce_uuid (all.get ⟨i, hl⟩).id = some ((recs.get ⟨i, hi⟩).ingredient_id)) ∧
    ((all.map (fun a => _coerce_uuid a.id)).Nodup →
      (recs.map (fun r => r.ingredient_id)).Nodup) := by
  obtain ⟨hd, hmap⟩ := compute_ok_elim h
  have hlen := mapExcept_ok_length hmap
  have hpoint : ∀ i (hi : i < recs.length) (hl : i < all.length),
      _coerce_uuid (all.get ⟨i, hl⟩).id = some ((recs.get ⟨i, hi⟩).ingredient_id) := by
    intro i hi hl
    have hpt := mapExcept_ok_get hmap i hl hi
    obtain ⟨uid, hcu, hrec⟩ := computeOne_ok_inv hpt
    rw [hcu, hrec, recFor_ingredient_id]
  refine ⟨hlen, hpoint, ?_⟩
  intro hnd
  have hmapeq : all.map (fun a => _coerce_uuid a.id) =
      recs.map (fun r => some r.ingredient_id) := by
    apply List.ext_get
    · simp [hlen]
    · intro n h1 h2
      simp only [List.get_eq_getElem, List.getElem_map]
      have := hpoint n (by simpa using h2) (by simpa using h1)
      simpa using this
  rw [hmapeq] at hnd
  have : recs.map (fun r => some r.ingredient_id) =
      (recs.map (fun r => r.ingredient_id)).map some := by
    rw [List.map_map]
    rfl
  rw [this] at hnd
  exact hnd.of_map some

/-- C9 witness: the three-ingredient scenario yields three records whose
first identity matches the first catalog identity. -/
theorem c9_one_per_ingredient_witness :
    ([leadRecPasta, leadRecCheese, leadRecPepper] :
      List IngredientRecommendation).length = leadCatalog.length ∧
    _coerce_uuid (leadCatalog.get ⟨0, by simp [leadCatalog]⟩).id =
      some leadRecPasta.ingredient_id :=
  ⟨(c9_one_per_ingredient leadCatalog (some leadConsumption) (some leadStock)
      (some leadOverride) (some leadSuppliers) 739007 739013 7 2
      [leadRecPasta, leadRecCheese, leadRecPepper] lead_compute).1,
   (c9_one_per_ingredient leadCatalog (some leadConsumption) (some leadStock)
      (some leadOverride) (some leadSuppliers) 739007 739013 7 2
      [leadRecPasta, leadRecCheese, leadRecPepper] lead_compute).2.1 0 (by simp)
      (by simp [leadCatalog])⟩

/-- C10: an id that fails UUID parsing coerces exactly like a missing id,
so the engine raises the same malformed-input error for it, while an id
given as the string serialization of an identity is accepted as that
identity. -/
theorem c10_uuid_coercion (all : List IngredientRow) (cd : Option (List (MKey × ℚ)))
    (sd : Option (List (MKey × StockEntry))) (spd : Option (List (MKey × OverrideEntry)))
    (dsd : Option (List (MKey × SupplierRecord))) (dfrom dto rc dl : Int) (s : String) :
    (_coerce_uuid (some (IdVal.badStr s)) = _coerce_uuid none) ∧
    (¬ dto < dfrom → (∃ ing, ing ∈ all ∧ ∃ s', ing.id = some (IdVal.badStr s')) →
      compute_purchase_recommendations all cd sd spd dsd dfrom dto rc dl =
        Except.error ComputeError.missingIngredientId) ∧
    (¬ dto < dfrom → (∃ ing, ing ∈ all ∧ ing.id = none) →
      compute_purchase_recommendations all cd sd spd dsd dfrom dto rc dl =
        Except.error ComputeError.missingIngredientId) ∧
    (∀ recs i (hi : i < recs.length) (hl : i < all.length) (n : Nat),
      compute_purchase_recommendations all cd sd spd dsd dfrom dto rc dl = Except.ok recs →
      (all.get ⟨i, hl⟩).id = some (IdVal.uuidStr n) →
      (recs.get ⟨i, hi⟩).ingredient_id = n) := by
  refine ⟨rfl, ?_, ?_, ?_⟩
  · rintro hd ⟨ing, hmem, s', hids⟩
    rw [compute_purchase_recommendations, if_neg hd]
    refine mapExcept_error_uniform (fun a e he => (computeOne_error_inv he).2)
      ⟨ing, hmem, _, computeOne_none ?_⟩
    rw [hids]
    rfl
  · rintro hd ⟨ing, hmem, hids⟩
    rw [compute_purchase_recommendations, if_neg hd]
    refine mapExcept_error_uniform (fun a e he => (computeOne_error_inv he).2)
      ⟨ing, hmem, _, computeOne_none ?_⟩
    rw [hids]
    rfl
  · intro recs i hi hl n h hids
    obtain ⟨hd, hmap⟩ := compute_ok_elim h
    have hpt := mapExcept_ok_get hmap i hl hi
    obtain ⟨uid, hcu, hrec⟩ := computeOne_ok_inv hpt
    rw [hids] at hcu
    simp only [_coerce_uuid, Option.some.injEq] at hcu
    rw [hrec, recFor_ingredient_id, ← hcu]

/-- C10 witness: a failing string id raises the malformed-input error and
a serialized id is accepted as its identity. -/
theorem c10_uuid_coercion_witness :
    (_coerce_uuid (some (IdVal.badStr "oops")) = _coerce_uuid none) ∧
    compute_purchase_recommendations [badRow] (some []) (some []) (some []) (some [])
      739007 739013 7 2 = Except.error ComputeError.missingIngredientId ∧
    strRec.ingredient_id = 7 :=
  ⟨(c10_uuid_coercion [badRow] (some []) (some []) (some []) (some [])
      739007 739013 7 2 "oops").1,
   (c10_uuid_coercion [badRow] (some []) (some []) (some []) (some [])
      739007 739013 7 2 "oops").2.1 (by norm_num) ⟨badRow, by simp, "oops", rfl⟩,
   (c10_uuid_coercion [strRow] (some []) (some []) (some []) (some [])
      739007 739013 7 2 "oops").2.2.2 [strRec] 0 (by simp) (by simp) 7 str_compute rfl⟩

/-- Helper facts for the key-representation claim: looking a typed key up
in a typed-keyed or string-keyed image of the same underlying map. -/
theorem findKey_uuid_map {α : Type} (entries : List (Nat × α)) (k : Nat) :
    findKey (entries.map (fun e => (MKey.uuid e.1, e.2))) (MKey.uuid k) =
      findNat entries k := by
  induction entries with
  | nil => rfl
  | cons e rest ih =>
    by_cases hk : e.1 = k
    · simp [findKey, findNat, hk]
    · simp [findKey, findNat, hk, ih]

theorem findKey_uuid_map_ustr {α : Type} (entries : List (Nat × α)) (k : Nat) :
    findKey (entries.map (fun e => (MKey.uuid e.1, e.2))) (MKey.ustr k) = none := by
  induction entries with
  | nil => rfl
  | cons e rest ih => simp [findKey, mkey_uuid_eq_ustr_false, ih]

theorem findKey_ustr_map_uuid {α : Type} (entries : List (Nat × α)) (k : Nat) :
    findKey (entries.map (fun e => (MKey.ustr e.1, e.2))) (MKey.uuid k) = none := by
  induction entries with
  | nil => rfl
  | cons e rest ih => simp [findKey, mkey_ustr_eq_uuid_false, ih]

theorem findKey_ustr_map {α : Type} (entries : List (Nat × α)) (k : Nat) :
    findKey (entries.map (fun e => (MKey.ustr e.1, e.2))) (MKey.ustr k) =
      findNat entries k := by
  induction entries with
  | nil => rfl
  | cons e rest ih =>
    by_cases hk : e.1 = k
    · simp [findKey, findNat, hk]
    · simp [findKey, findNat, hk, ih]

/-- C8: a _lookup for an identity returns the same value whether the
mapping is keyed by the typed identity or by its string serialization,
namely the plain lookup in the underlying map, and it succeeds exactly
when one of the two key forms is present. -/
theorem c8_lookup_key_forms :
    (∀ (α : Type) (entries : List (Nat × α)) (k : Nat),
      _lookup (some (entries.map (fun e => (MKey.uuid e.1, e.2)))) (some k) =
        findNat entries k ∧
      _lookup (some (entries.map (fun e => (MKey.ustr e.1, e.2)))) (some k) =
        findNat entries k) ∧
    (∀ (α : Type) (m : List (MKey × α)) (k : Nat),
      (_lookup (some m) (some k)).isSome =
        ((findKey m (MKey.uuid k)).isSome || (findKey m (MKey.ustr k)).isSome)) := by
  constructor
  · intro α entries k
    constructor
    · rw [_lookup, findKey_uuid_map, findKey_uuid_map_ustr]
      cases findNat entries k <;> rfl
    · rw [_lookup, findKey_ustr_map_uuid, findKey_ustr_map]
  · intro α m k
    rw [_lookup]
    cases findKey m (MKey.uuid k) <;> simp

end Purchasing

namespace Aggregator

theorem foldAdd_nil (m : List (String × ℚ)) : foldAdd m [] = m := rfl

theorem foldAdd_cons (m : List (String × ℚ)) (p : String × ℚ) (l : List (String × ℚ)) :
    foldAdd m (p :: l) = foldAdd (addTo m p.1 p.2) l := rfl

theorem foldAdd_append (m : List (String × ℚ)) (l1 l2 : List (String × ℚ)) :
    foldAdd m (l1 ++ l2) = foldAdd (foldAdd m l1) l2 :=
  List.foldl_append _ _ _ _

theorem findStr_addTo (m : List (String × ℚ)) (k : String) (v : ℚ) (q : String) :
    findStr (addTo m k v) q =
      if q = k then some ((findStr m k).getD 0 + v) else findStr m q := by
  induction m with
  | nil =>
    by_cases hq : q = k
    · subst hq
      simp [addTo, findStr]
    · simp [addTo, findStr, hq, Ne.symm hq]
  | cons e rest ih =>
    by_cases ha : e.1 = k
    · subst ha
      by_cases hq : q = e.1
      · subst hq
        simp [addTo, findStr]
      · simp [addTo, findStr, hq, Ne.symm hq]
    · by_cases hq : q = k
      · subst hq
        simp [addTo, findStr, ha, ih]
      · by_cases he : e.1 = q
        · subst he
          simp [addTo, findStr, ha, hq, ih]
        · simp [addTo, findStr, ha, he, hq, ih]

theorem sumKey_of_not_hasKey (l : List (String × ℚ)) (k : String)
    (h : hasKeyL l k = false) : sumKey l k = 0 := by
  induction l with
  | nil => rfl
  | cons p rest ih =>
    simp only [hasKeyL, Bool.or_eq_false_iff, decide_eq_false_iff_not] at h
    simp [sumKey, h.1, ih h.2]

theorem findStr_foldAdd (l : List (String × ℚ)) (m : List (String × ℚ)) (k : String) :
    findStr (foldAdd m l) k =
      if hasKeyL l k then some ((findStr m k).getD 0 + sumKey l k) else findStr m k := by
  induction l generalizing m with
  | nil => simp [foldAdd_nil, hasKeyL]
  | cons p rest ih =>
    rw [foldAdd_cons, ih, findStr_addTo]
    by_cases hp : p.1 = k
    · subst hp
      by_cases hk : hasKeyL rest p.1
      · simp [hasKeyL, sumKey, hk, add_assoc]
      · simp [hasKeyL, sumKey, hk,
          sumKey_of_not_hasKey rest p.1 (by simpa using hk)]
    · have hkp : ¬ (k = p.1) := fun h => hp h.symm
      by_cases hk : hasKeyL rest k
      · simp [hasKeyL, sumKey, hp, hk, hkp]
      · simp [hasKeyL, sumKey, hp, hk, hkp]

theorem foldl_recipeStep (qty : ℚ) (rs : List RecipeRow) (c : List (String × ℚ)) :
    rs.foldl (recipeStep qty) c =
      foldAdd c (rs.filterMap (fun r =>
        if recipeQualifies r then
          some (r.ingredient_id.getD "", qty * r.quantity_per_unit.getD 0)
        else none)) := by
  induction rs generalizing c with
  | nil => rfl
  | cons r rest ih =>
    rw [List.foldl_cons, List.filterMap_cons]
    cases hid : r.ingredient_id with
    | none =>
      have hq : recipeQualifies r = false := by simp [recipeQualifies, hid]
      rw [hq]
      simp only [if_false, Bool.false_eq_true]
      rw [show recipeStep qty c r = c by simp [recipeStep, hid]]
      exact ih c
    | some iid =>
      by_cases hcond : iid = "" ∨ r.quantity_per_unit.getD 0 ≤ 0
      · have hq : recipeQualifies r = false := by
          rcases hcond with hh | hh
          · simp [recipeQualifies, hid, hh]
          · simp [recipeQualifies, hid, not_lt.mpr hh]
        rw [hq]
        simp only [if_false, Bool.false_eq_true]
        rw [show recipeStep qty c r = c by simp [recipeStep, hid, hcond]]
        exact ih c
      · have hq : recipeQualifies r = true := by
          push_neg at hcond
          simp [recipeQualifies, hid, hcond.1, hcond.2]
        rw [hq]
        simp only [if_true, Option.getD_some]
        rw [show recipeStep qty c r = addTo c iid (qty * r.quantity_per_unit.getD 0) by
          simp [recipeStep, hid, hcond]]
        rw [foldAdd_cons]
        exact ih (addTo c iid (qty * r.quantity_per_unit.getD 0))

theorem foldl_orderStep (recipes : List RecipeRow) (orders : List OrderRow) (st : AggState) :
    (orders.foldl (orderStep recipes) st).consumption =
      foldAdd st.consumption (contribList orders recipes) ∧
    (orders.foldl (orderStep recipes) st).total_dishes =
      st.total_dishes + dishesOf orders := by
  induction orders generalizing st with
  | nil => simp [contribList, dishesOf, foldAdd_nil]
  | cons o rest ih =>
    rw [List.foldl_cons]
    rw [show contribList (o :: rest) recipes =
      orderContribs recipes o ++ contribList rest recipes from rfl]
    rw [foldAdd_append]
    cases hmid : o.menu_item_id with
    | none =>
      have hq : orderQualifies o = false := by simp [orderQualifies, hmid]
      have hstep : orderStep recipes st o = st := by simp [orderStep, hmid]
      rw [hstep]
      obtain ⟨ihc, iht⟩ := ih st
      refine ⟨?_, ?_⟩
      · rw [ihc]
        rw [show orderContribs recipes o = [] by simp [orderContribs, hq]]
        rfl
      · rw [iht]
        simp [dishesOf, hq]
    | some mid =>
      by_cases hcond : mid = "" ∨ o.quantity.getD 0 ≤ 0
      · have hq : orderQualifies o = false := by
          rcases hcond with hh | hh
          · simp [orderQualifies, hmid, hh]
          · simp [orderQualifies, hmid, not_lt.mpr hh]
        have hstep : orderStep recipes st o = st := by simp [orderStep, hmid, hcond]
        rw [hstep]
        obtain ⟨ihc, iht⟩ := ih st
        refine ⟨?_, ?_⟩
        · rw [ihc]
          rw [show orderContribs recipes o = [] by simp [orderContribs, hq]]
          rfl
        · rw [iht]
          simp [dishesOf, hq]
      · have hq : orderQualifies o = true := by
          push_neg at hcond
          simp [orderQualifies, hmid, hcond.1, hcond.2]
        have hstep : orderStep recipes st o =
            AggState.mk
              ((recipesFor recipes mid).foldl (recipeStep (o.quantity.getD 0)) st.consumption)
              (addTo st.menu_totals mid (o.quantity.getD 0))
              (st.total_dishes + o.quantity.getD 0) := by
          simp [orderStep, hmid, hcond]
        rw [hstep]
        obtain ⟨ihc, iht⟩ :=
          ih (AggState.mk
            ((recipesFor recipes mid).foldl (recipeStep (o.quantity.getD 0)) st.consumption)
            (addTo st.menu_totals mid (o.quantity.getD 0))
            (st.total_dishes + o.quantity.getD 0))
        refine ⟨?_, ?_⟩
        · rw [ihc]
          have hcontr : orderContribs recipes o =
              (recipesFor recipes mid).filterMap (fun r =>
                if recipeQualifies r then
                  some (r.ingredient_id.getD "",
                    o.quantity.getD 0 * r.quantity_per_unit.getD 0)
                else none) := by
            simp [orderContribs, hq, hmid]
          rw [hcontr]
          rw [show (AggState.mk
            ((recipesFor recipes mid).foldl (recipeStep (o.quantity.getD 0)) st.consumption)
            (addTo st.menu_totals mid (o.quantity.getD 0))
            (st.total_dishes + o.quantity.getD 0)).consumption =
              (recipesFor recipes mid).foldl (recipeStep (o.quantity.getD 0)) st.consumption
            from rfl]
          rw [foldl_recipeStep]
        · rw [iht]
          simp [dishesOf, hq, add_assoc]

/-- C7: for every order history, recipe table and ingredient key, the
consumption map built by fetch_historical_orders_and_recipes carries the
key exactly when some qualifying order line contributes to it (orders with
a falsy menu_item_id or non-positive quantity and recipe lines with a
falsy ingredient_id or non-positive quantity_per_unit are skipped), and
then holds the sum of order.quantity * quantity_per_unit over those
contributions; total_dishes is the sum of all qualifying order quantities
regardless of recipes; and with zero orders the result is an empty
consumption map, total_dishes 0 and an empty top_menu_items list. -/
theorem c7_consumption_aggregation (orders : List OrderRow) (recipes : List RecipeRow)
    (rows : List MenuItemRow) (iid : String) :
    (findStr (fetch_historical_orders_and_recipes orders recipes rows).consumption iid =
      (if hasKeyL (contribList orders recipes) iid then
         some (sumKey (contribList orders recipes) iid)
       else none)) ∧
    (fetch_historical_orders_and_recipes orders recipes rows).total_dishes =
      dishesOf orders ∧
    fetch_historical_orders_and_recipes [] recipes rows = AggResult.mk [] 0 [] := by
  refine ⟨?_, ?_, rfl⟩
  · by_cases ho : orders = []
    · subst ho
      simp [fetch_historical_orders_and_recipes, contribList, hasKeyL, findStr]
    · rw [fetch_historical_orders_and_recipes, if_neg ho]
      have hc := (foldl_orderStep recipes orders (AggState.mk [] [] 0)).1
      rw [show (AggResult.mk (orders.foldl (orderStep recipes) (AggState.mk [] [] 0)).consumption
          (orders.foldl (orderStep recipes) (AggState.mk [] [] 0)).total_dishes
          ((((orders.foldl (orderStep recipes)
                (AggState.mk [] [] 0)).menu_totals.mergeSort
              (fun a b => decide (b.2 ≤ a.2))).take 5).map
            (fun e => TopMenuItem.mk e.1
              ((findStr (buildNames rows) e.1).getD "Plat") e.2))).consumption =
          (orders.foldl (orderStep recipes) (AggState.mk [] [] 0)).consumption from rfl]
      rw [hc, findStr_foldAdd]
      rw [show findStr (AggState.mk ([] : List (String × ℚ)) [] 0).consumption iid = none
        from rfl]
      by_cases hk : hasKeyL (contribList orders recipes) iid
      · simp [hk]
      · simp [hk]
  · by_cases ho : orders = []
    · subst ho
      simp [fetch_historical_orders_and_recipes, dishesOf]
    · rw [fetch_historical_orders_and_recipes, if_neg ho]
      have ht := (foldl_orderStep recipes orders (AggState.mk [] [] 0)).2
      rw [show (AggResult.mk (orders.foldl (orderStep recipes) (AggState.mk [] [] 0)).consumption
          (orders.foldl (orderStep recipes) (AggState.mk [] [] 0)).total_dishes
          ((((orders.foldl (orderStep recipes)
                (AggState.mk [] [] 0)).menu_totals.mergeSort
              (fun a b => decide (b.2 ≤ a.2))).take 5).map
            (fun e => TopMenuItem.mk e.1
              ((findStr (buildNames rows) e.1).getD "Plat") e.2))).total_dishes =
          (orders.foldl (orderStep recipes) (AggState.mk [] [] 0)).total_dishes from rfl]
      rw [ht]
      simp


end Aggregator
